import Mathlib

/-!
Verification development for the `url_shortener_api` repository
(`shortener/models.py`, `shortener/serializers.py`, `shortener/views.py`,
`shortener/url_validator.py`).

The Python source is shallowly embedded: the database table of
`ShortenedURL` rows is a `List Link`, the Django cache used by the
anonymous quota limiter is a `List CacheEntry` together with an explicit
`now` clock, randomness used by short-code generation is an explicit
candidate stream `Nat → String`, and the `while True` generation loop is
observed through an explicit fuel parameter (`none` meaning the loop has
not terminated within the observed number of iterations).
-/

/-! ## Character-level helpers for the classifier (`url_validator.py`) -/

/-- Lowercase a Python string, as `url.lower()` does (ASCII-faithful). -/
def toLowerList (s : String) : List Char :=
  s.toList.map Char.toLower

/-- Characters allowed in a URL scheme by `urllib.parse` (`scheme_chars`). -/
def SCHEME_CHARS : List Char :=
  ("abcdefghijklmnopqrstuvwxyzABCDEFGHIJKLMNOPQRSTUVWXYZ0123456789+-.").toList

/-- Word characters for the regex `\b` boundary and `\w` class (ASCII part). -/
def isWordCh (c : Char) : Bool := c.isAlphanum || c == '_'

/-- Result of `urllib.parse.urlparse` restricted to the components the
classifier reads (`scheme`, `netloc`, and enough to rebuild `geturl()`). -/
structure ParsedURL where
  scheme : List Char
  hasNetloc : Bool
  netloc : List Char
  rest : List Char
deriving DecidableEq, Repr

/-- Split a string at the first colon, returning (prefix, suffix). -/
def splitSchemeAux (acc : List Char) : List Char → Option (List Char × List Char)
  | [] => none
  | c :: rest => if c = ':' then some (acc.reverse, rest) else splitSchemeAux (c :: acc) rest

/-- Model of `urllib.parse.urlparse` (CPython `urlsplit` semantics for the
used components): optional scheme before the first colon (nonempty, first
character a letter, all characters in `scheme_chars`), a netloc after `//`
delimited by `/`, `?` or `#`, and the `ValueError("Invalid IPv6 URL")`
raised when the netloc contains an unmatched square bracket. -/
def urlparse (s : List Char) : Except String ParsedURL :=
  let schemeRem : List Char × List Char :=
    match splitSchemeAux [] s with
    | some (sch, rest) =>
        if sch ≠ [] ∧ (sch.headD ' ').isAlpha ∧ sch.all (fun c => SCHEME_CHARS.contains c)
        then (sch, rest) else ([], s)
    | none => ([], s)
  let rem := schemeRem.2
  let netlocRest : Bool × List Char × List Char :=
    match rem with
    | '/' :: '/' :: r =>
        let n := r.takeWhile (fun c => !(c == '/' || c == '?' || c == '#'))
        (true, n, r.drop n.length)
    | _ => (false, [], rem)
  let netloc := netlocRest.2.1
  if (netloc.contains '[' && !(netloc.contains ']')) ||
     (netloc.contains ']' && !(netloc.contains '[')) then
    Except.error "Invalid IPv6 URL"
  else
    Except.ok ⟨schemeRem.1, netlocRest.1, netloc, netlocRest.2.2⟩

/-- Rebuild the URL string, as `parsed_url.geturl()` does. -/
def geturl (p : ParsedURL) : List Char :=
  (if p.scheme.isEmpty then [] else p.scheme ++ [':']) ++
  (if p.hasNetloc then '/' :: '/' :: p.netloc else []) ++ p.rest

/-! ## Regex search semantics used by the suspicious patterns -/

/-- All suffixes of `s` that start right after an occurrence of `p`. -/
def occSuffixes (p : List Char) : List Char → List (List Char)
  | [] => []
  | c :: rest =>
      (if p.isPrefixOf (c :: rest) then [(c :: rest).drop p.length] else []) ++
      occSuffixes p rest

/-- Match the remaining literal parts of a pattern, each separated from the
previous one by `.*` (which cannot cross a newline). -/
def reSeqNext : List (List Char) → List Char → Bool
  | [], _ => true
  | p :: ps, s =>
      (occSuffixes p (s.takeWhile (fun c => c ≠ '\n'))).any (fun rest => reSeqNext ps rest)

/-- Existence semantics of `re.search` for a pattern that is a sequence of
literal parts separated by `.*` (e.g. `download.*\.exe`): the first part may
occur anywhere, each later part on the same line after the previous one. -/
def reSearchSeq (parts : List (List Char)) (s : List Char) : Bool :=
  match parts with
  | [] => true
  | p :: ps => (occSuffixes p s).any (fun rest => reSeqNext ps rest)

/-- Existence semantics of `re.search` for an end-anchored literal pattern
such as `\.exe$`: the literal at the end of the string, or just before a
final newline. -/
def reSearchEnd (p s : List Char) : Bool :=
  p.isSuffixOf s || (p ++ ['\n']).isSuffixOf s

/-- One entry of `URLChecker.SUSPICIOUS_PATTERNS`: the raw regex source text
(used verbatim in the reason message) together with its literal parts and
whether it is `$`-anchored. -/
structure SPat where
  src : String
  parts : List (List Char)
  anchored : Bool
deriving DecidableEq

/-- The `SUSPICIOUS_PATTERNS` list of `url_validator.py`, in source order. -/
def SUSPICIOUS_PATTERNS : List SPat :=
  [ ⟨"\\.exe$", [".exe".toList], true⟩,
    ⟨"\\.scr$", [".scr".toList], true⟩,
    ⟨"\\.bat$", [".bat".toList], true⟩,
    ⟨"\\.com\\.exe$", [".com.exe".toList], true⟩,
    ⟨"phishing", ["phishing".toList], false⟩,
    ⟨"malware", ["malware".toList], false⟩,
    ⟨"virus", ["virus".toList], false⟩,
    ⟨"trojan", ["trojan".toList], false⟩,
    ⟨"download.*\\.exe", ["download".toList, ".exe".toList], false⟩,
    ⟨"free.*download.*\\.exe", ["free".toList, "download".toList, ".exe".toList], false⟩ ]

/-- Whether `re.search(pattern, full_url)` finds a match. -/
def patMatch (p : SPat) (s : List Char) : Bool :=
  if p.anchored then reSearchEnd (p.parts.headD []) s else reSearchSeq p.parts s

/-- The `MALICIOUS_DOMAINS` set of `url_validator.py` (compared against the
parsed netloc). -/
def MALICIOUS_DOMAINS : List (List Char) :=
  [ "bit.ly/malware".toList,
    "tinyurl.com/virus".toList,
    "malware.com".toList,
    "phishing-site.com".toList,
    "virus-download.net".toList ]

/-! ## The IPv4-literal regex `\b(?:[0-9]{1,3}\.){3}[0-9]{1,3}\b` -/

/-- Consume exactly `n` digit characters. -/
def eatDigits : Nat → List Char → Option (List Char)
  | 0, s => some s
  | _ + 1, [] => none
  | n + 1, c :: s => if c.isDigit then eatDigits n s else none

/-- Consume a literal dot. -/
def eatDot : List Char → Option (List Char)
  | [] => none
  | c :: s => if c = '.' then some s else none

/-- Consume `a`, `b`, `c`, `d` digits separated by dots. -/
def quadMatch (a b c d : Nat) (s : List Char) : Option (List Char) :=
  ((((((eatDigits a s).bind eatDot).bind (eatDigits b)).bind eatDot).bind
      (eatDigits c)).bind eatDot).bind (eatDigits d)

/-- Does a dotted quad with a trailing word boundary match at the start of
`s`? Tries all run lengths 1–3, as regex backtracking would. -/
def quadHere (s : List Char) : Bool :=
  (List.range 3).any fun a => (List.range 3).any fun b =>
    (List.range 3).any fun c => (List.range 3).any fun d =>
      match quadMatch (a + 1) (b + 1) (c + 1) (d + 1) s with
      | some rest => rest.isEmpty || !(isWordCh (rest.headD ' '))
      | none => false

/-- Is there a `\b` boundary before a digit, given the previous character? -/
def boundaryBefore : Option Char → Bool
  | none => true
  | some c => !(isWordCh c)

/-- Scan for the dotted-quad pattern with word boundaries on both sides. -/
def ipSearchAux : Option Char → List Char → Bool
  | _, [] => false
  | prev, ch :: rest =>
      (boundaryBefore prev && quadHere (ch :: rest)) || ipSearchAux (some ch) rest

/-- Whether the IPv4-literal regex matches somewhere in the netloc. -/
def ipSearch (s : List Char) : Bool := ipSearchAux none s

/-- Model of `URLChecker._has_suspicious_structure`. -/
def hasSuspiciousStructure (p : ParsedURL) : Bool :=
  decide (p.netloc.count '.' > 3) || decide ((geturl p).length > 500) || ipSearch p.netloc

/-- Model of `URLChecker.is_malicious`: returns the `(is_malicious, reason)`
pair. The `try/except` of the source is the `Except.error` branch of
`urlparse`; by construction the function is total and never raises. -/
def is_malicious (url : String) : Bool × String :=
  match urlparse (toLowerList url) with
  | Except.error e => (true, "Unable to validate URL: " ++ e)
  | Except.ok p =>
      let domain := p.netloc
      let full_url := toLowerList url
      if MALICIOUS_DOMAINS.contains domain then
        (true, "Domain \x27" ++ String.mk domain ++ "\x27 is in malicious domains list")
      else
        match SUSPICIOUS_PATTERNS.find? (fun pt => patMatch pt full_url) with
        | some pt => (true, "URL contains suspicious pattern: " ++ pt.src)
        | none =>
            if hasSuspiciousStructure p then (true, "URL has suspicious structure")
            else (false, "URL appears safe")

/-! ## Data model (`shortener/models.py`, class `ShortenedURL`) -/

/-- One row of the `ShortenedURL` table. The Cloudinary `qr_code` field is an
external image handle with no bearing on the modelled behaviour and is
omitted; `created_at`/`updated_at` are omitted likewise (the only ordering
use, `Meta.ordering = [-created_at]`, is modelled by insertion order of the
list, newest last). -/
structure Link where
  id : Nat
  original_url : String
  short_code : String
  user : Option Nat
  visit_count : Nat
  is_active : Bool
  is_flagged : Bool
  flag_reason : Option String
deriving DecidableEq, Repr

/-- The alphabet `string.ascii_letters + string.digits` used by
`generate_short_code`. -/
def ALPHABET : List Char :=
  ("abcdefghijklmnopqrstuvwxyzABCDEFGHIJKLMNOPQRSTUVWXYZ0123456789").toList

/-- One character drawn by `random.choices` from the 62-character alphabet. -/
def pickChar (k : Fin 62) : Char := ALPHABET.getD k.val 'a'

/-- One candidate code: six independent draws from the alphabet, as
`random.choices(string.ascii_letters + string.digits, k=6)` produces. -/
def codeOfPicks (p : Fin 6 → Fin 62) : String :=
  String.mk ((List.finRange 6).map (fun i => pickChar (p i)))

/-- The body of `ShortenedURL.generate_short_code`: draw candidate `i`, and
if some row already holds that code, loop with candidate `i + 1`. The
source loop is `while True` with no bound; `fuel` is the number of
iterations we observe, and `none` means the loop has not returned within
that many iterations (it is still running). -/
def genLoop (db : List Link) (cand : Nat → String) : Nat → Nat → Option String
  | _, 0 => none
  | i, fuel + 1 =>
      let code := cand i
      if db.any (fun l => l.short_code == code) then genLoop db cand (i + 1) fuel
      else some code

/-! ## Anonymous quota limiter (`ShortenURLView` helpers, Django cache) -/

/-- One entry of the Django cache used by the limiter: a key, the stored
count, and the absolute expiry instant (`cache.set(key, v, ttl)` stores
until `now + ttl`). -/
structure CacheEntry where
  key : String
  count : Nat
  expiresAt : Nat
deriving DecidableEq, Repr

/-- The cache state. -/
abbrev Cache := List CacheEntry

/-- Model of `cache.get(key, 0)`: an absent or expired entry reads as 0. -/
def cacheGet (c : Cache) (now : Nat) (k : String) : Nat :=
  match c.find? (fun e => e.key == k) with
  | some e => if now < e.expiresAt then e.count else 0
  | none => 0

/-- Model of `cache.set(key, v, ttl)`: replace the entry, expiring at
`now + ttl`. -/
def cacheSet (c : Cache) (now : Nat) (k : String) (v : Nat) (ttl : Nat) : Cache :=
  ⟨k, v, now + ttl⟩ :: c.filter (fun e => !(e.key == k))

/-- An incoming creation request, as `ShortenURLView.create` reads it:
`request.user` (None when anonymous), `request.data` fields, and the client
address metadata consulted by `get_client_ip`. -/
structure CreateRequest where
  user : Option Nat
  original_url : Option String
  custom_code : Option String
  xff : Option String
  remote_addr : String
deriving DecidableEq, Repr

/-- Model of `ShortenURLView.get_client_ip`: first entry of the
`X-Forwarded-For` header when present and nonempty (everything before the
first comma, as `split(",")[0]` yields), else the peer address. -/
def get_client_ip (req : CreateRequest) : String :=
  match req.xff with
  | some s =>
      if s ≠ "" then String.mk (s.toList.takeWhile (fun c => c ≠ ',')) else req.remote_addr
  | none => req.remote_addr

/-- The cache key `f"anon_url_count_{ip_address}"`. -/
def anonKey (req : CreateRequest) : String :=
  "anon_url_count_" ++ get_client_ip req

/-- Model of `ShortenURLView.check_anonymous_limit`: true iff the counter
for the client IP is strictly below 10. -/
def check_anonymous_limit (c : Cache) (now : Nat) (req : CreateRequest) : Bool :=
  decide (cacheGet c now (anonKey req) < 10)

/-- Model of `ShortenURLView.increment_anonymous_counter`: read the counter
and store it incremented with a fresh 86400-second expiry. -/
def increment_anonymous_counter (c : Cache) (now : Nat) (req : CreateRequest) : Cache :=
  cacheSet c now (anonKey req) (cacheGet c now (anonKey req) + 1) 86400

/-! ## Serializer validation (`ShortenedURLSerializer`) -/

/-- Model of Python `str.strip()`: drop whitespace from both ends. -/
def pyStrip (s : String) : String :=
  String.mk (((s.toList.dropWhile Char.isWhitespace).reverse.dropWhile
    Char.isWhitespace).reverse)

/-- Characters accepted by the custom-code regex `^[a-zA-Z0-9_-]+$`. -/
def customCodeChar (c : Char) : Bool := c.isAlphanum || c == '_' || c == '-'

/-- Simplified model of the Django `URLField` structural validation run on
`original_url` before `validate_original_url`: a known scheme, `://`, and a
nonempty parseable host. (The full `URLValidator` regex is framework code;
only its pass/fail result is consumed here.) -/
def urlFieldValid (u : String) : Bool :=
  let l := toLowerList u
  (["http://", "https://", "ftp://", "ftps://"].any fun p => (p.toList).isPrefixOf l) &&
  (match urlparse l with
   | Except.ok p => !p.netloc.isEmpty
   | Except.error _ => false)

/-- Outcome of `serializer.is_valid`. -/
inductive ValidationResult
  | ok
  | err (msg : String)
deriving DecidableEq, Repr

/-- Model of the serializer validation run by `serializer.is_valid`:
`URLField` structural validation, then `validate_original_url` (which
raises when `URLChecker.is_malicious` says so), then for a provided
`custom_code` the `CharField(max_length=10)` bound and
`validate_custom_code` (charset regex, minimum length 3, uniqueness
against existing rows). Only the first failure is reported. -/
def runValidation (db : List Link) (url : String) (custom : Option String) : ValidationResult :=
  if !(urlFieldValid url) then .err "Enter a valid URL."
  else
    let mal := is_malicious url
    if mal.1 then .err ("URL appears to be malicious: " ++ mal.2)
    else
      match custom with
      | none => .ok
      | some c0 =>
          let c := pyStrip c0
          if decide (c.length > 10) then .err "Ensure this field has no more than 10 characters."
          else if c = "" then .err "This field may not be blank."
          else if !(c.toList.all customCodeChar) then
            .err "Custom code can only contain letters, numbers, hyphens, and underscores."
          else if decide (c.length < 3) then .err "Custom code must be at least 3 characters long."
          else if db.any (fun l => l.short_code == c) then
            .err "This custom code is already taken. Please choose another one."
          else .ok

/-! ## The creation endpoint (`ShortenURLView.create`) -/

/-- The whole system state touched by the endpoints: the `ShortenedURL`
table (insertion order, newest last), the quota cache, and the next
auto-assigned primary key. -/
structure SysState where
  db : List Link
  cache : Cache
  nextId : Nat
deriving DecidableEq, Repr

/-- HTTP-level outcome of `ShortenURLView.create`. `genPending` is the
observation that the unbounded generation loop has not returned within the
observed fuel (the request is still executing; no response exists yet). -/
inductive HttpOut
  | tooMany (msg : String)
  | badRequest (msg : String)
  | validationError (msg : String)
  | okExisting (l : Link)
  | created (l : Link)
  | genPending
deriving DecidableEq, Repr

/-- The `custom_code` value the serializer sees: DRF `CharField` trims
surrounding whitespace of a provided value. -/
def serCustom (req : CreateRequest) : Option String := req.custom_code.map pyStrip

/-- The view-level `custom_code = request.data.get(..., '').strip()` value. -/
def viewCustom (req : CreateRequest) : String := pyStrip (req.custom_code.getD "")

/-- Model of `ShortenedURL.objects.filter(original_url=.., user=..).first()`
under `Meta.ordering = [-created_at]`: the most recently created matching
row. -/
def dedupFind (db : List Link) (u : String) (uid : Nat) : Option Link :=
  db.reverse.find? (fun l => l.original_url == u && l.user == some uid)

/-- Short-code choice inside `serializer.create`/`ShortenedURL.save`: a
provided (truthy) custom code is used as-is, otherwise
`generate_short_code` runs. -/
def chooseCode (db : List Link) (custom : Option String) (cand : Nat → String) (fuel : Nat) :
    Option String :=
  match custom with
  | some c => if c ≠ "" then some c else genLoop db cand 0 fuel
  | none => genLoop db cand 0 fuel

/-- A freshly inserted row: `visit_count=0`, `is_active=True`,
`is_flagged=False`, `flag_reason` unset, owner set only when authenticated. -/
def mkLink (i : Nat) (u code : String) (user : Option Nat) : Link :=
  ⟨i, u, code, user, 0, true, false, none⟩

/-- The dedup lookup of `ShortenURLView.create`: only for an authenticated
user and only when no custom code was supplied. -/
def dedupCheck (db : List Link) (req : CreateRequest) (u : String) : Option Link :=
  match req.user with
  | some uid => if viewCustom req = "" then dedupFind db u uid else none
  | none => none

/-- Model of `ShortenURLView.create`, in source order: anonymous quota
check, missing-`original_url` check, authenticated dedup lookup (only when
no custom code), serializer validation, short-code choice, insert, and the
anonymous counter increment that runs only after a successful insert. -/
def createView (st : SysState) (req : CreateRequest) (now : Nat) (cand : Nat → String)
    (fuel : Nat) : HttpOut × SysState :=
  if req.user.isNone && !(check_anonymous_limit st.cache now req) then
    (.tooMany "Anonymous users can only shorten 10 URLs per day. Please register for unlimited access.", st)
  else
    match req.original_url with
    | none => (.badRequest "original_url is required", st)
    | some u =>
        if u = "" then (.badRequest "original_url is required", st)
        else
          match dedupCheck st.db req u with
          | some ex => (.okExisting ex, st)
          | none =>
              match runValidation st.db u (serCustom req) with
              | .err m => (.validationError m, st)
              | .ok =>
                  match chooseCode st.db (serCustom req) cand fuel with
                  | none => (.genPending, st)
                  | some code =>
                      (.created (mkLink st.nextId u code req.user),
                       { db := st.db ++ [mkLink st.nextId u code req.user],
                         cache := if req.user.isNone then
                             increment_anonymous_counter st.cache now req
                           else st.cache,
                         nextId := st.nextId + 1 })

/-! ## The redirect endpoint (`RedirectView.get`) -/

/-- Outcome of `RedirectView.get`. The flagged branch renders an
interstitial page embedding the destination and the flag reason; the
constructor carries those two values. -/
inductive RedirectOut
  | notFound
  | gone (html : String)
  | warning (url : String) (reason : String)
  | redirectTo (url : String)
deriving DecidableEq, Repr

/-- HTTP status of each redirect outcome (404 via `get_object_or_404`, 410
for the deactivated page, 200 for the interstitial, 302 for the redirect). -/
def statusOf : RedirectOut → Nat
  | .notFound => 404
  | .gone _ => 410
  | .warning _ _ => 200
  | .redirectTo _ => 302

/-- The body returned for a deactivated link. -/
def unavailableHtml : String :=
  "<h1>URL Not Available</h1><p>This shortened URL has been deactivated.</p>"

/-- Python f-string rendering of `flag_reason` (prints None when unset). -/
def reasonText : Option String → String
  | some r => r
  | none => "None"

/-- Model of `instance.save()` by primary key: replace the row whose `id`
matches. -/
def saveById (db : List Link) (l : Link) : List Link :=
  db.map (fun x => if x.id == l.id then l else x)

/-- Model of `RedirectView.get`: fetch by `short_code` (404 when absent),
410 page when `is_active` is false, interstitial warning when `is_flagged`,
otherwise `visit_count += 1; save()` and a redirect to `original_url`. -/
def redirectView (db : List Link) (code : String) : RedirectOut × List Link :=
  match db.find? (fun l => l.short_code == code) with
  | none => (.notFound, db)
  | some l =>
      if l.is_active = false then (.gone unavailableHtml, db)
      else if l.is_flagged = true then
        (.warning l.original_url (reasonText l.flag_reason), db)
      else
        (.redirectTo l.original_url, saveById db { l with visit_count := l.visit_count + 1 })

/-! ## Sanity checks of the classifier on the spec examples -/

example : (is_malicious "https://example.com/article").1 = false := by decide
example : (is_malicious "http://malware.com/x").1 = true := by decide
example : (is_malicious "http://192.168.1.1/payload.exe").1 = true := by decide
example : is_malicious "http://[::1" =
    (true, "Unable to validate URL: Invalid IPv6 URL") := by decide

/-! ## Helper lemmas -/

/-- Every character the generator can draw is alphanumeric. -/
theorem pickChar_isAlphanum : ∀ k : Fin 62, (pickChar k).isAlphanum = true := by decide

/-- A generated candidate is always six characters long. -/
theorem codeOfPicks_length (p : Fin 6 → Fin 62) : (codeOfPicks p).length = 6 := rfl

/-- Every character of a generated candidate is alphanumeric. -/
theorem codeOfPicks_isAlphanum (p : Fin 6 → Fin 62) :
    ∀ ch ∈ (codeOfPicks p).toList, ch.isAlphanum = true := by
  intro ch hch
  simp only [codeOfPicks, String.toList, String.mk, List.mem_map] at hch
  obtain ⟨i, _, rfl⟩ := hch
  exact pickChar_isAlphanum (p i)

/-- If the generation loop returned a code, that code is one of the drawn
candidates and no existing row holds it. -/
theorem genLoop_some_spec (db : List Link) (cand : Nat → String) (i fuel : Nat) (c : String)
    (h : genLoop db cand i fuel = some c) :
    (∃ j, c = cand j) ∧ ∀ x ∈ db, x.short_code ≠ c := by
  induction fuel generalizing i with
  | zero => simp [genLoop] at h
  | succ n ih =>
      simp only [genLoop] at h
      split at h
      · exact ih (i + 1) h
      · rename_i hany
        have hc : cand i = c := by injection h
        subst hc
        refine ⟨⟨i, rfl⟩, ?_⟩
        intro x hx hEq
        exact hany (List.any_eq_true.mpr ⟨x, hx, by simp [hEq]⟩)

/-- Looking up the same short code after saving the bumped row finds the
bumped row, provided primary keys are distinct. -/
theorem find_save_bump (db : List Link) (code : String) (l : Link)
    (hN : (db.map (fun x => x.id)).Nodup)
    (hfind : db.find? (fun x => x.short_code == code) = some l) :
    (saveById db { l with visit_count := l.visit_count + 1 }).find?
      (fun x => x.short_code == code) = some { l with visit_count := l.visit_count + 1 } := by
  induction db with
  | nil => simp [List.find?] at hfind
  | cons h t ih =>
      rw [List.map_cons, List.nodup_cons] at hN
      obtain ⟨hhid, hNt⟩ := hN
      by_cases hc : (h.short_code == code) = true
      · have hl : some h = some l := by rw [← hfind]; simp [List.find?, hc]
        have hl2 : h = l := by injection hl
        subst hl2
        simp [saveById, List.find?, hc]
      · have hfind2 : t.find? (fun x => x.short_code == code) = some l := by
          rw [← hfind]
          simp only [List.find?]
          rw [Bool.eq_false_iff.mpr hc]
        have hlmem := List.mem_of_find?_eq_some hfind2
        have hne : (h.id == l.id) = false := by
          apply beq_eq_false_iff_ne.mpr
          intro hEq
          exact hhid (hEq ▸ List.mem_map_of_mem (fun x => x.id) hlmem)
        simp only [saveById, List.map_cons]
        have hupd : (if (h.id == Link.id { l with visit_count := l.visit_count + 1 }) = true
            then { l with visit_count := l.visit_count + 1 } else h) = h := by
          simp only [show Link.id { l with visit_count := l.visit_count + 1 } = l.id from rfl]
          rw [hne]
          simp
        rw [hupd]
        simp only [List.find?]
        rw [Bool.eq_false_iff.mpr hc]
        simpa only [saveById] using ih hNt hfind2

/-- A row whose primary key differs from the saved row is untouched by
`saveById`. -/
theorem mem_save_of_ne (db : List Link) (l x : Link) (hx : x ∈ db) (hne : x.id ≠ l.id) :
    x ∈ saveById db l := by
  have hif : (if (x.id == l.id) = true then l else x) = x := by
    rw [beq_eq_false_iff_ne.mpr hne]; simp
  have hmem := List.mem_map_of_mem (fun y => if (y.id == l.id) = true then l else y) hx
  simp only [] at hmem
  rw [hif] at hmem
  simpa only [saveById] using hmem

/-- Every run of `ShortenURLView.create` either leaves the state unchanged
and does not answer 201 (the quota, missing-field, dedup, validation and
still-generating exits), or answers 201 with exactly one appended row, the
anonymous counter bumped for anonymous requests and nothing else changed. -/
theorem createView_shape (st : SysState) (req : CreateRequest) (now : Nat)
    (cand : Nat → String) (fuel : Nat) :
    ((createView st req now cand fuel).2 = st ∧
      ∀ l, (createView st req now cand fuel).1 ≠ .created l) ∨
    (∃ l, (createView st req now cand fuel).1 = .created l ∧
      (createView st req now cand fuel).2.db = st.db ++ [l] ∧
      (createView st req now cand fuel).2.cache =
        (if req.user.isNone then increment_anonymous_counter st.cache now req
         else st.cache) ∧
      (createView st req now cand fuel).2.nextId = st.nextId + 1) := by
  unfold createView
  split
  · left; exact ⟨rfl, by intro l h; simp at h⟩
  · split
    · left; exact ⟨rfl, by intro l h; simp at h⟩
    · split
      · left; exact ⟨rfl, by intro l h; simp at h⟩
      · split
        · left; exact ⟨rfl, by intro l h; simp at h⟩
        · split
          · left; exact ⟨rfl, by intro l h; simp at h⟩
          · split
            · left; exact ⟨rfl, by intro l h; simp at h⟩
            · right
              exact ⟨_, rfl, rfl, rfl, rfl⟩

/-! ## C3: active unflagged resolution redirects and counts the visit -/

/-- C3: for every stored Link that exists, is active and is not flagged,
resolving its short code returns the redirect decision carrying its
`original_url`, stores the row with `visit_count` incremented by exactly 1,
and leaves every other row untouched. -/
theorem c3_active_unflagged_redirect (db : List Link) (code : String) (l : Link)
    (hN : (db.map (fun x => x.id)).Nodup)
    (hfind : db.find? (fun x => x.short_code == code) = some l)
    (hact : l.is_active = true) (hfl : l.is_flagged = false) :
    (redirectView db code).1 = .redirectTo l.original_url ∧
    (redirectView db code).2.find? (fun x => x.short_code == code) =
      some { l with visit_count := l.visit_count + 1 } ∧
    ∀ x ∈ db, x.id ≠ l.id → x ∈ (redirectView db code).2 := by
  have hview : redirectView db code =
      (.redirectTo l.original_url, saveById db { l with visit_count := l.visit_count + 1 }) := by
    simp [redirectView, hfind, hact, hfl]
  rw [hview]
  refine ⟨rfl, find_save_bump db code l hN hfind, ?_⟩
  intro x hx hne
  exact mem_save_of_ne db { l with visit_count := l.visit_count + 1 } x hx hne

/-- C3 witness: a concrete active, unflagged row is redirected and its
visit count goes from 5 to 6. -/
theorem c3_witness :
    (redirectView [⟨1, "https://example.com/a", "abcDEF", none, 5, true, false, none⟩]
        "abcDEF").1 = .redirectTo "https://example.com/a" ∧
    (redirectView [⟨1, "https://example.com/a", "abcDEF", none, 5, true, false, none⟩]
        "abcDEF").2.find? (fun x => x.short_code == "abcDEF") =
      some ⟨1, "https://example.com/a", "abcDEF", none, 6, true, false, none⟩ :=
  have h := c3_active_unflagged_redirect
    [⟨1, "https://example.com/a", "abcDEF", none, 5, true, false, none⟩] "abcDEF"
    ⟨1, "https://example.com/a", "abcDEF", none, 5, true, false, none⟩
    (by decide) (by decide) rfl rfl
  ⟨h.1, h.2.1⟩

/-! ## C4: inactive links answer 410, not a redirect, not a 404 -/

/-- C4: for every stored Link with `is_active = false`, resolution returns
the distinct unavailable page with HTTP status 410 — not a redirect and
not the generic not-found — and the table (hence the visit count) is
unchanged. -/
theorem c4_inactive_gone (db : List Link) (code : String) (l : Link)
    (hfind : db.find? (fun x => x.short_code == code) = some l)
    (hina : l.is_active = false) :
    redirectView db code = (.gone unavailableHtml, db) ∧
    statusOf (redirectView db code).1 = 410 := by
  have hview : redirectView db code = (.gone unavailableHtml, db) := by
    simp [redirectView, hfind, hina]
  exact ⟨hview, by rw [hview]; rfl⟩

/-- C4 witness: a concrete deactivated row (even a flagged one) answers the
410 page and the table is unchanged. -/
theorem c4_witness :
    redirectView [⟨2, "https://example.com/b", "offXYZ", some 7, 3, false, true, some "was bad"⟩]
        "offXYZ" =
      (.gone unavailableHtml,
       [⟨2, "https://example.com/b", "offXYZ", some 7, 3, false, true, some "was bad"⟩]) :=
  (c4_inactive_gone
    [⟨2, "https://example.com/b", "offXYZ", some 7, 3, false, true, some "was bad"⟩] "offXYZ"
    ⟨2, "https://example.com/b", "offXYZ", some 7, 3, false, true, some "was bad"⟩
    rfl rfl).1

/-! ## C5: flagged active links answer the warning, uncounted -/

/-- C5: for every stored Link that is active and flagged, resolution
returns the malicious-warning decision carrying both its `original_url`
and its stored `flag_reason`, does not redirect, and the table (hence the
visit count) is unchanged. -/
theorem c5_flagged_warning (db : List Link) (code : String) (l : Link) (r : String)
    (hfind : db.find? (fun x => x.short_code == code) = some l)
    (hact : l.is_active = true) (hfl : l.is_flagged = true)
    (hr : l.flag_reason = some r) :
    redirectView db code = (.warning l.original_url r, db) := by
  simp [redirectView, hfind, hact, hfl, reasonText, hr]

/-- C5 witness: a concrete flagged active row answers the warning carrying
its destination and reason, leaving the table unchanged. -/
theorem c5_witness :
    redirectView [⟨3, "http://malware.com/x", "warn42", none, 9, true, true,
        some "Domain is in malicious domains list"⟩] "warn42" =
      (.warning "http://malware.com/x" "Domain is in malicious domains list",
       [⟨3, "http://malware.com/x", "warn42", none, 9, true, true,
         some "Domain is in malicious domains list"⟩]) :=
  c5_flagged_warning
    [⟨3, "http://malware.com/x", "warn42", none, 9, true, true,
      some "Domain is in malicious domains list"⟩] "warn42"
    ⟨3, "http://malware.com/x", "warn42", none, 9, true, true,
      some "Domain is in malicious domains list"⟩
    "Domain is in malicious domains list" rfl rfl rfl rfl

/-! ## C7: the code-generation loop is NOT bounded (corrected) -/

/-- C7 counterexample: with a candidate stream that always collides, the
`while True` loop of `ShortenedURL.generate_short_code` is still running
after 6 iterations and still after 100 iterations — it has not failed with
any `GenerationExhausted`-style error after exceeding the claimed 5-attempt
budget, because no retry cap and no such error exist in the code. -/
theorem c7_counterexample :
    genLoop [⟨1, "https://example.com/a", "aaaaaa", none, 0, true, false, none⟩]
        (fun _ => "aaaaaa") 0 6 = none ∧
    genLoop [⟨1, "https://example.com/a", "aaaaaa", none, 0, true, false, none⟩]
        (fun _ => "aaaaaa") 0 100 = none := by
  exact ⟨by decide, by decide⟩

/-- C7 amended: the generation loop is unbounded. As long as every drawn
candidate collides with an existing row, the loop keeps retrying for any
number of observed iterations, returning no result and no error. -/
theorem c7_amended_loop_unbounded (db : List Link) (cand : Nat → String)
    (h : ∀ i, db.any (fun l => l.short_code == cand i) = true) :
    ∀ i fuel, genLoop db cand i fuel = none := by
  intro i fuel
  induction fuel generalizing i with
  | zero => rfl
  | succ n ih =>
      simp only [genLoop, h i, if_true]
      exact ih (i + 1)

/-- C7 amended witness: a concrete always-colliding stream retries through
7 observed iterations without returning. -/
theorem c7_amended_witness :
    genLoop [⟨4, "https://example.com/c", "bbbbbb", none, 0, true, false, none⟩]
        (fun _ => "bbbbbb") 0 7 = none :=
  c7_amended_loop_unbounded
    [⟨4, "https://example.com/c", "bbbbbb", none, 0, true, false, none⟩]
    (fun _ => "bbbbbb")
    (fun _ =>
      (by decide :
        ([(⟨4, "https://example.com/c", "bbbbbb", none, 0, true, false, none⟩ : Link)].any
          fun l => l.short_code == "bbbbbb") = true)) 0 7

/-! ## C8: generated codes are 6 alphanumeric characters, unused before -/

/-- C8: whenever `createLink` without a custom code answers 201 with a
Link, that Link carries a short code of exactly 6 characters, all matching
`[A-Za-z0-9]`, that differs from the short code of every previously stored
Link. (The candidate stream ranges over what `random.choices` on the
62-character alphabet can produce.) -/
theorem c8_generated_code_shape (st : SysState) (req : CreateRequest) (now : Nat)
    (picks : Nat → Fin 6 → Fin 62) (fuel : Nat) (l : Link) (st2 : SysState)
    (hc : req.custom_code = none)
    (hres : createView st req now (fun i => codeOfPicks (picks i)) fuel = (.created l, st2)) :
    l.short_code.length = 6 ∧
    (∀ ch ∈ l.short_code.toList, ch.isAlphanum = true) ∧
    ∀ x ∈ st.db, x.short_code ≠ l.short_code := by
  have hser : serCustom req = none := by simp [serCustom, hc]
  unfold createView at hres
  split at hres
  · simp at hres
  · split at hres
    · simp at hres
    · split at hres
      · simp at hres
      · split at hres
        · simp at hres
        · split at hres
          · simp at hres
          · split at hres
            · simp at hres
            · rename_i code hcode
              rw [hser] at hcode
              simp only [chooseCode] at hcode
              have hl := congrArg Prod.fst hres
              simp only [] at hl
              injection hl with hml
              have hshort : l.short_code = code := by rw [← hml]; rfl
              have hgen := genLoop_some_spec st.db _ 0 fuel code hcode
              obtain ⟨⟨j, hj⟩, hfresh⟩ := hgen
              subst hj
              refine ⟨?_, ?_, ?_⟩
              · rw [hshort]; exact codeOfPicks_length (picks j)
              · rw [hshort]; exact codeOfPicks_isAlphanum (picks j)
              · intro x hx
                rw [hshort]
                exact hfresh x hx

/-- C8 witness: a concrete anonymous creation with the all-zero draw stream
produces the code `aaaaaa`: 6 characters, alphanumeric, fresh in the empty
table. -/
theorem c8_witness :
    (mkLink 1 "https://example.com/w8" "aaaaaa" none).short_code.length = 6 ∧
    (∀ ch ∈ (mkLink 1 "https://example.com/w8" "aaaaaa" none).short_code.toList,
      ch.isAlphanum = true) ∧
    ∀ x ∈ ([] : List Link),
      x.short_code ≠ (mkLink 1 "https://example.com/w8" "aaaaaa" none).short_code :=
  c8_generated_code_shape ⟨[], [], 1⟩ ⟨none, some "https://example.com/w8", none, none, "8.8.8.8"⟩
    0 (fun _ _ => 0) 5 (mkLink 1 "https://example.com/w8" "aaaaaa" none)
    ⟨[mkLink 1 "https://example.com/w8" "aaaaaa" none],
     [⟨"anon_url_count_8.8.8.8", 1, 86400⟩], 2⟩ rfl (by decide)

/-! ## C1: malicious URLs are rejected at creation, not flagged (corrected) -/

/-- C1 counterexample: a creation request for `http://malware.com/x` (which
the classifier deems malicious) is answered with a serializer validation
error carrying the classifier reason, and no Link record is created at
all — refuting the claim that the Link is still created with
`is_flagged = true`. Nothing in the creation path ever sets `is_flagged`. -/
theorem c1_counterexample :
    createView ⟨[], [], 1⟩ ⟨none, some "http://malware.com/x", none, none, "1.2.3.4"⟩ 0
        (fun _ => "aaaaaa") 5 =
      (.validationError
        "URL appears to be malicious: Domain \x27malware.com\x27 is in malicious domains list",
       ⟨[], [], 1⟩) := by
  decide

/-- C1 amended: for every creation request whose `original_url` is
structurally valid but deemed malicious by the classifier (and which is
not turned away earlier by the anonymous quota or served by the
authenticated dedup path), `createLink` rejects the request with the
validation error carrying the classifier reason and changes no state; no
Link is created and `is_flagged` is never set during creation. -/
theorem c1_amended_malicious_rejected (st : SysState) (req : CreateRequest) (now : Nat)
    (cand : Nat → String) (fuel : Nat) (u : String)
    (hurl : req.original_url = some u) (hne : u ≠ "")
    (hq : req.user = none → check_anonymous_limit st.cache now req = true)
    (hd : dedupCheck st.db req u = none)
    (hfield : urlFieldValid u = true)
    (hmal : (is_malicious u).1 = true) :
    createView st req now cand fuel =
      (.validationError ("URL appears to be malicious: " ++ (is_malicious u).2), st) := by
  have hquota : (req.user.isNone && !(check_anonymous_limit st.cache now req)) = false := by
    cases hu : req.user with
    | none => rw [hq hu]; simp
    | some uid => simp [hu]
  have hval : runValidation st.db u (serCustom req) =
      .err ("URL appears to be malicious: " ++ (is_malicious u).2) := by
    simp only [runValidation, hfield, Bool.not_true, Bool.false_eq_true, if_false]
    rw [show (is_malicious u) = (true, (is_malicious u).2) from
      Prod.ext hmal rfl]
    simp
  simp [createView, hquota, hurl, hne, hd, hval]

/-- C1 amended witness: the amended behaviour at a concrete malicious URL
from the denylist. -/
theorem c1_amended_witness :
    createView ⟨[], [], 3⟩ ⟨none, some "http://phishing-site.com/a", none, none, "5.6.7.8"⟩ 0
        (fun _ => "cccccc") 5 =
      (.validationError
        ("URL appears to be malicious: " ++ (is_malicious "http://phishing-site.com/a").2),
       ⟨[], [], 3⟩) :=
  c1_amended_malicious_rejected ⟨[], [], 3⟩
    ⟨none, some "http://phishing-site.com/a", none, none, "5.6.7.8"⟩ 0
    (fun _ => "cccccc") 5 "http://phishing-site.com/a" rfl (by decide)
    (fun _ => by decide) (by decide) (by decide) (by decide)

/-! ## C2: dedup applies to authenticated owners only (corrected) -/

/-- C2 counterexample: two anonymous `createLink` calls with the same
`original_url` and no custom code. The first creates a Link with code
`abc123`; the second does NOT return that code — the dedup branch requires
an authenticated user, so a second Link with the fresh code `xyz789` is
created instead. -/
theorem c2_counterexample :
    (createView ⟨[], [], 1⟩ ⟨none, some "https://example.com/page", none, none, "1.2.3.4"⟩ 0
        (fun n => if n = 0 then "abc123" else "xyz789") 5).1 =
      .created (mkLink 1 "https://example.com/page" "abc123" none) ∧
    (createView
        (createView ⟨[], [], 1⟩ ⟨none, some "https://example.com/page", none, none, "1.2.3.4"⟩ 0
          (fun n => if n = 0 then "abc123" else "xyz789") 5).2
        ⟨none, some "https://example.com/page", none, none, "1.2.3.4"⟩ 0
        (fun n => if n = 0 then "abc123" else "xyz789") 5).1 =
      .created (mkLink 2 "https://example.com/page" "xyz789" none) ∧
    ("xyz789" ≠ "abc123") := by
  decide

/-- C2 amended: deduplication holds for authenticated owners only. For an
authenticated user, a `createLink` call with no custom code whose
`original_url` already has a Link owned by that user returns the existing
Link (hence the same `short_code`) with no state change; anonymous
requests skip the dedup branch entirely and create a new Link each time. -/
theorem c2_amended_auth_dedup (st : SysState) (req : CreateRequest) (now : Nat)
    (cand : Nat → String) (fuel : Nat) (u : String) (uid : Nat) (ex : Link)
    (huser : req.user = some uid) (hurl : req.original_url = some u) (hne : u ≠ "")
    (hcust : viewCustom req = "") (hex : dedupFind st.db u uid = some ex) :
    createView st req now cand fuel = (.okExisting ex, st) := by
  have hquota : (req.user.isNone && !(check_anonymous_limit st.cache now req)) = false := by
    simp [huser]
  have hd : dedupCheck st.db req u = some ex := by
    simp [dedupCheck, huser, hcust, hex]
  simp [createView, hquota, hurl, hne, hd]

/-- C2 amended witness: a concrete authenticated repeat submission returns
the stored Link unchanged. -/
theorem c2_amended_witness :
    createView ⟨[⟨1, "https://example.com/d", "dddddd", some 42, 0, true, false, none⟩], [], 2⟩
        ⟨some 42, some "https://example.com/d", none, none, "2.2.2.2"⟩ 0 (fun _ => "eeeeee") 5 =
      (.okExisting ⟨1, "https://example.com/d", "dddddd", some 42, 0, true, false, none⟩,
       ⟨[⟨1, "https://example.com/d", "dddddd", some 42, 0, true, false, none⟩], [], 2⟩) :=
  c2_amended_auth_dedup
    ⟨[⟨1, "https://example.com/d", "dddddd", some 42, 0, true, false, none⟩], [], 2⟩
    ⟨some 42, some "https://example.com/d", none, none, "2.2.2.2"⟩ 0 (fun _ => "eeeeee") 5
    "https://example.com/d" 42 ⟨1, "https://example.com/d", "dddddd", some 42, 0, true, false, none⟩
    rfl rfl (by decide) (by decide) (by decide)

/-! ## C6: the anonymous quota -/

/-- Helper: `createView` answers 429 exactly when the request is anonymous
and the limiter says the counter is not below 10. -/
theorem createView_tooMany_iff (st : SysState) (req : CreateRequest) (now : Nat)
    (cand : Nat → String) (fuel : Nat) :
    (∃ m, (createView st req now cand fuel).1 = .tooMany m) ↔
      (req.user.isNone && !(check_anonymous_limit st.cache now req)) = true := by
  unfold createView
  split
  · rename_i hcond
    simp [hcond]
  · rename_i hcond
    constructor
    · rintro ⟨m, hm⟩
      exfalso
      split at hm
      · simp at hm
      · split at hm
        · simp at hm
        · split at hm
          · simp at hm
          · split at hm
            · simp at hm
            · split at hm
              · simp at hm
              · simp at hm
    · intro h
      exact absurd h hcond

/-- C6: for an anonymous request, creation is turned away with 429 exactly
when the quota counter for the client IP is not strictly below 10 in the
current window; and a successful creation stores the counter incremented
by one with an expiry 86400 seconds from now (creating the entry when it
was absent). Hence within one window the 10th creation (counter 9)
succeeds and the 11th (counter 10) fails. -/
theorem c6_anonymous_quota (st : SysState) (req : CreateRequest) (now : Nat)
    (cand : Nat → String) (fuel : Nat) (hanon : req.user = none) :
    ((∃ m, (createView st req now cand fuel).1 = .tooMany m) ↔
      ¬(cacheGet st.cache now (anonKey req) < 10)) ∧
    (∀ l st2, createView st req now cand fuel = (.created l, st2) →
      cacheGet st2.cache now (anonKey req) = cacheGet st.cache now (anonKey req) + 1 ∧
      st2.cache.find? (fun e => e.key == anonKey req) =
        some ⟨anonKey req, cacheGet st.cache now (anonKey req) + 1, now + 86400⟩) := by
  constructor
  · rw [createView_tooMany_iff st req now cand fuel, hanon]
    simp [check_anonymous_limit]
  · intro l st2 h
    have hc2 : (createView st req now cand fuel).2 = st2 := congrArg Prod.snd h
    rcases createView_shape st req now cand fuel with ⟨_, hno⟩ | ⟨l2, h1, _, hcache, _⟩
    · exact absurd (congrArg Prod.fst h) (hno l)
    · have hcache2 : st2.cache = increment_anonymous_counter st.cache now req := by
        rw [← hc2, hcache, hanon]
        rfl
      rw [hcache2]
      constructor
      · simp only [increment_anonymous_counter, cacheSet, cacheGet, List.find?,
          beq_self_eq_true]
        rw [if_pos (by omega)]
      · simp only [increment_anonymous_counter, cacheSet, List.find?, beq_self_eq_true]

/-- C6 witness: with a stored counter of 10 in the current window the
request is answered 429; with an empty cache a successful creation stores
the counter 1 expiring 86400 seconds later. -/
theorem c6_witness :
    (∃ m, (createView ⟨[], [⟨"anon_url_count_7.7.7.7", 10, 100⟩], 1⟩
        ⟨none, some "https://example.com/q", none, none, "7.7.7.7"⟩ 0 (fun _ => "qqqqqq") 5).1 =
      HttpOut.tooMany m) ∧
    (cacheGet (createView ⟨[], [], 1⟩
        ⟨none, some "https://example.com/q", none, none, "7.7.7.7"⟩ 0
        (fun _ => "qqqqqq") 5).2.cache 0
        (anonKey ⟨none, some "https://example.com/q", none, none, "7.7.7.7"⟩) = 1 ∧
     (createView ⟨[], [], 1⟩ ⟨none, some "https://example.com/q", none, none, "7.7.7.7"⟩ 0
        (fun _ => "qqqqqq") 5).2.cache.find?
          (fun e => e.key == anonKey ⟨none, some "https://example.com/q", none, none, "7.7.7.7"⟩) =
        some ⟨anonKey ⟨none, some "https://example.com/q", none, none, "7.7.7.7"⟩, 1, 86400⟩) :=
  And.intro
    ((c6_anonymous_quota ⟨[], [⟨"anon_url_count_7.7.7.7", 10, 100⟩], 1⟩
        ⟨none, some "https://example.com/q", none, none, "7.7.7.7"⟩ 0
        (fun _ => "qqqqqq") 5 rfl).1.mpr (by decide))
    ((c6_anonymous_quota ⟨[], [], 1⟩
        ⟨none, some "https://example.com/q", none, none, "7.7.7.7"⟩ 0
        (fun _ => "qqqqqq") 5 rfl).2
      (mkLink 1 "https://example.com/q" "qqqqqq" none)
      ⟨[mkLink 1 "https://example.com/q" "qqqqqq" none],
       [⟨"anon_url_count_7.7.7.7", 1, 86400⟩], 2⟩ (by decide))

/-! ## C9: the classifier is total and fails closed -/

/-- C9: `is_malicious` is a total function by construction (every input
string yields a `(Bool, reason)` pair; the source `try/except` is the
`Except.error` branch, so no exception escapes). Moreover it fails closed:
whenever the URL cannot be parsed, the result is malicious with the
unparseable reason, never safe; and a safe verdict only ever carries the
explicit safe message. -/
theorem c9_classifier_total_fails_closed (url : String) :
    ((is_malicious url).1 = false → (is_malicious url).2 = "URL appears safe") ∧
    (∀ e, urlparse (toLowerList url) = Except.error e →
      is_malicious url = (true, "Unable to validate URL: " ++ e)) := by
  have hcases : is_malicious url = (false, "URL appears safe") ∨
      (is_malicious url).1 = true := by
    simp only [is_malicious]
    split
    · right; rfl
    · split
      · right; rfl
      · split
        · right; rfl
        · split
          · right; rfl
          · left; rfl
  constructor
  · intro hsafe
    rcases hcases with h | h
    · rw [h]
    · rw [hsafe] at h
      exact absurd h (by decide)
  · intro e he
    simp only [is_malicious, he]

/-- C9 witness: the concrete unparseable input `http://[::1` (unmatched
IPv6 bracket) is classified malicious with the unparseable reason. -/
theorem c9_witness :
    is_malicious "http://[::1" = (true, "Unable to validate URL: " ++ "Invalid IPv6 URL") :=
  (c9_classifier_total_fails_closed "http://[::1").2 "Invalid IPv6 URL" rfl

/-! ## C10: failed anonymous requests never consume quota -/

/-- C10: for an anonymous creation request, if the outcome is not a
successful 201 creation (missing `original_url`, rejected `original_url`
or `custom_code`, quota already exceeded, or still generating), the quota
cache — and the table — are left exactly unchanged: the counter is bumped
only after a row has been created. -/
theorem c10_failed_request_consumes_no_quota (st : SysState) (req : CreateRequest)
    (now : Nat) (cand : Nat → String) (fuel : Nat)
    (_hanon : req.user = none)
    (hfail : ∀ l, (createView st req now cand fuel).1 ≠ .created l) :
    (createView st req now cand fuel).2.cache = st.cache ∧
    (createView st req now cand fuel).2.db = st.db := by
  rcases createView_shape st req now cand fuel with ⟨h2, _⟩ | ⟨l, h1, _, _, _⟩
  · rw [h2]
    exact ⟨rfl, rfl⟩
  · exact absurd h1 (hfail l)

/-- C10 witness: a concrete anonymous request with a missing
`original_url` fails and leaves the (empty) cache and table unchanged. -/
theorem c10_witness :
    (createView ⟨[], [], 1⟩ ⟨none, none, none, none, "3.3.3.3"⟩ 0 (fun _ => "zzzzzz") 5).2.cache =
      ([] : Cache) ∧
    (createView ⟨[], [], 1⟩ ⟨none, none, none, none, "3.3.3.3"⟩ 0 (fun _ => "zzzzzz") 5).2.db =
      ([] : List Link) :=
  c10_failed_request_consumes_no_quota ⟨[], [], 1⟩ ⟨none, none, none, none, "3.3.3.3"⟩ 0
    (fun _ => "zzzzzz") 5 rfl
    (fun l h => HttpOut.noConfusion
      (show HttpOut.badRequest "original_url is required" = HttpOut.created l from h))
